import Mathlib

/-!
Shallow embedding of the JWT authentication and scoped-authorization core of
go-apiTemplate (src/internal/auth/auth.go), together with theorems settling
the spec claims about it.

Time is modelled in whole seconds as `Nat` (the spec's registered-claim
convention: timestamps truncate to whole seconds).  RSA key pairs are
modelled by a shared identifier: a private key and a public key correspond
exactly when they carry the same identifier; HMAC keys are the secret
strings themselves.  Cryptographic signing is modelled symbolically: a
signature records the algorithm, the key material used, and the claims it
signs, and verification checks that the authenticator's key material of the
matching family reproduces it.  The wire encoding of tokens (a concern of
the third-party golang-jwt/v5 library, which is not part of this
repository's sources) is abstracted by a `decode` function wherever a
middleware receives a token as a string.
-/

namespace Auth

/-- Standard errors of the auth package (src/internal/auth/auth.go:21-27).
`signingFailed` stands for the wrapped signing error of GenerateJWTToken
(auth.go:161), which is not one of the five named errors. -/
inductive AuthError where
  | invalidToken
  | expiredToken
  | insufficientScope
  | missingToken
  | authorizationPending
  | signingFailed
  deriving DecidableEq, Repr

/-- JWT signing methods selectable in NewAuthenticator (auth.go:85-100). -/
inductive SigningMethod where
  | HS256 | HS384 | HS512 | RS256 | RS384 | RS512
  deriving DecidableEq, Repr

/-- Whether a signing method belongs to the HMAC family
(the Go type switch `token.Method.(*jwt.SigningMethodHMAC)`, auth.go:171). -/
def SigningMethod.isHMAC : SigningMethod → Bool
  | .HS256 | .HS384 | .HS512 => true
  | .RS256 | .RS384 | .RS512 => false

/-- The registered JWT claims used by the program (auth.go:132-139);
timestamps in whole seconds. -/
structure RegisteredClaims where
  expiresAt : Nat
  issuedAt : Nat
  notBefore : Nat
  issuer : String
  subject : String
  id : String
  deriving DecidableEq, Repr

/-- Claims (auth.go:59-65): registered claims plus user ID, roles, scopes. -/
structure Claims where
  registered : RegisteredClaims
  userID : String
  roles : List String
  scopes : List String
  deriving DecidableEq, Repr

/-- Symbolic model of a JWT signature: it records the algorithm, the key
material used to produce it (the HMAC secret, or the RSA private-key
identifier), and the claims payload it signs. -/
inductive Signature where
  | hmac (method : SigningMethod) (key : String) (signed : Claims)
  | rsa (method : SigningMethod) (keyId : Nat) (signed : Claims)
  deriving DecidableEq, Repr

/-- A decoded token: claims plus the signature over them.
Modelled from the spec: the compact header.claims.signature wire string of
golang-jwt/v5 (not under src/) is represented structurally. -/
structure Token where
  claims : Claims
  sig : Signature
  deriving DecidableEq, Repr

/-- OAuth2 configuration assembled by NewAuthenticator (auth.go:103-112). -/
structure OAuth2Config where
  ClientID : String
  ClientSecret : String
  RedirectURL : String
  AuthURL : String
  TokenURL : String
  Scopes : List String
  deriving DecidableEq, Repr

/-- AuthConfig (auth.go:41-57).  The RSA keys are key-pair identifiers,
`none` standing for Go's nil pointers. -/
structure AuthConfig where
  JWTSecret : String
  JWTPrivateKey : Option Nat
  JWTPublicKey : Option Nat
  JWTSigningMethod : String
  JWTExpirationTime : Nat
  JWTIssuer : String
  OAuth2ClientID : String := ""
  OAuth2ClientSecret : String := ""
  OAuth2RedirectURL : String := ""
  OAuth2AuthURL : String := ""
  OAuth2TokenURL : String := ""
  OAuth2Scopes : List String := []
  deriving DecidableEq, Repr

/-- Authenticator (auth.go:68-78); the logger is an external collaborator
and is omitted. -/
structure Authenticator where
  jwtSigningMethod : SigningMethod
  jwtSecret : String
  jwtPrivateKey : Option Nat
  jwtPublicKey : Option Nat
  jwtIssuer : String
  jwtExpiration : Nat
  oauth2Config : OAuth2Config
  deriving DecidableEq, Repr

/-- The signing-method names recognised by the switch in NewAuthenticator
(auth.go:85-100). -/
def supportedMethodNames : List String :=
  ["HS256", "HS384", "HS512", "RS256", "RS384", "RS512"]

/-- NewAuthenticator (auth.go:81-124).  The Go function returns a
`(value, error)` pair but never a non-nil error; any unrecognised
signing-method name falls to the `default` branch selecting HS256. -/
def NewAuthenticator (config : AuthConfig) : Except AuthError Authenticator :=
  let signingMethod : SigningMethod :=
    match config.JWTSigningMethod with
    | "HS256" => .HS256
    | "HS384" => .HS384
    | "HS512" => .HS512
    | "RS256" => .RS256
    | "RS384" => .RS384
    | "RS512" => .RS512
    | _ => .HS256
  let oauth2Config : OAuth2Config :=
    { ClientID := config.OAuth2ClientID
      ClientSecret := config.OAuth2ClientSecret
      RedirectURL := config.OAuth2RedirectURL
      AuthURL := config.OAuth2AuthURL
      TokenURL := config.OAuth2TokenURL
      Scopes := config.OAuth2Scopes }
  .ok
    { jwtSigningMethod := signingMethod
      jwtSecret := config.JWTSecret
      jwtPrivateKey := config.JWTPrivateKey
      jwtPublicKey := config.JWTPublicKey
      jwtIssuer := config.JWTIssuer
      jwtExpiration := config.JWTExpirationTime
      oauth2Config := oauth2Config }

/-- The Claims value built by GenerateJWTToken (auth.go:128-143):
`now` is the issuance instant (Go `time.Now()`), `tokenID` the generated
UUID (both nondeterministic in Go, hence parameters here). -/
def generatedClaims (a : Authenticator) (now : Nat) (tokenID userID : String)
    (roles scopes : List String) : Claims :=
  { registered :=
      { expiresAt := now + a.jwtExpiration
        issuedAt := now
        notBefore := now
        issuer := a.jwtIssuer
        subject := userID
        id := tokenID }
    userID := userID
    roles := roles
    scopes := scopes }

/-- GenerateJWTToken (auth.go:127-165).  HMAC methods sign with the secret;
RSA methods sign with the private key and fail (auth.go:160-162) when the
key is absent (Go nil). -/
def Authenticator.GenerateJWTToken (a : Authenticator) (now : Nat)
    (tokenID userID : String) (roles scopes : List String) :
    Except AuthError Token :=
  let claims := generatedClaims a now tokenID userID roles scopes
  match a.jwtSigningMethod with
  | .HS256 | .HS384 | .HS512 =>
      .ok { claims := claims, sig := .hmac a.jwtSigningMethod a.jwtSecret claims }
  | .RS256 | .RS384 | .RS512 =>
      match a.jwtPrivateKey with
      | some k => .ok { claims := claims, sig := .rsa a.jwtSigningMethod k claims }
      | none => .error .signingFailed

/-- VerifyJWTToken (auth.go:168-197).  The key function returns the secret
for HMAC-family tokens and the public key for RSA-family tokens
(auth.go:171-176).  Modelled from the spec: the parsing, signature check and
claim validation done inside golang-jwt/v5 ParseWithClaims (not under src/)
follow spec section 4.1 — the signature must be reproducible from the
authenticator's key material of the matching family, and the expiry check is
the strict comparison now > expiresAt, so a token expiring at exactly `now`
is still valid. -/
def Authenticator.VerifyJWTToken (a : Authenticator) (now : Nat) (t : Token) :
    Except AuthError Claims :=
  let signatureOK : Bool :=
    match t.sig with
    | .hmac _ key signed => decide (key = a.jwtSecret) && decide (signed = t.claims)
    | .rsa _ keyId signed => decide (a.jwtPublicKey = some keyId) && decide (signed = t.claims)
  if signatureOK then
    if now > t.claims.registered.expiresAt then .error .expiredToken
    else .ok t.claims
  else .error .invalidToken

/-- Go strings.Split with a one-character separator, over the character
list: the substrings between consecutive occurrences of the separator.  On
the empty input it yields one empty part, like Go. -/
def splitOnChar (sep : Char) : List Char → List (List Char)
  | [] => [[]]
  | x :: xs =>
    match splitOnChar sep xs with
    | [] => if x = sep then [[], []] else [[x]]
    | y :: ys => if x = sep then [] :: y :: ys else (x :: y) :: ys

/-- Go `strings.Split(s, " ")` (auth.go:232), as a string function. -/
def splitSpace (s : String) : List String :=
  (splitOnChar ' ' s.data).map String.mk

/-- ExtractBearerToken (auth.go:226-238), as a function of the
Authorization header value; Go `Header.Get` yields the empty string when the
header is absent.  The Go code splits on single spaces and requires exactly
two parts with first part "Bearer". -/
def ExtractBearerToken (authHeader : String) : Except AuthError String :=
  if authHeader = "" then .error .missingToken
  else
    match splitSpace authHeader with
    | [scheme, credential] =>
        if scheme = "Bearer" then .ok credential else .error .invalidToken
    | _ => .error .invalidToken

/-- ContextKey (auth.go:293). -/
abbrev ContextKey := String

/-- ClaimsContextKey (auth.go:297). -/
def ClaimsContextKey : ContextKey := "claims"

/-- ScopesContextKey (auth.go:300). -/
def ScopesContextKey : ContextKey := "scopes"

/-- UserIDContextKey (auth.go:303). -/
def UserIDContextKey : ContextKey := "user_id"

/-- A value stored in a request context; the constructors stand for the Go
dynamic types that the accessors type-assert against: `*Claims`, `[]string`
and `string`. -/
inductive CtxValue where
  | ofClaims (c : Claims)
  | ofScopes (s : List String)
  | ofString (s : String)
  deriving DecidableEq, Repr

/-- A request context: key-value pairs, most recently added first
(Go builds contexts by nesting `context.WithValue`). -/
abbrev Ctx := List (ContextKey × CtxValue)

/-- Go context.WithValue: the new pair shadows older ones. -/
def Ctx.withValue (ctx : Ctx) (k : ContextKey) (v : CtxValue) : Ctx :=
  (k, v) :: ctx

/-- Go ctx.Value: the most recently stored value for the key, if any. -/
def Ctx.value (ctx : Ctx) (k : ContextKey) : Option CtxValue :=
  (ctx.find? (fun p => p.1 == k)).map (fun p => p.2)

/-- An HTTP response as far as this core writes one: a status code and the
fixed message passed to http.Error (or whatever the downstream handler
produced). -/
structure Response where
  statusCode : Nat
  body : String
  deriving DecidableEq, Repr

/-- The slice of an inbound request this core reads and threads through:
the Authorization header value ("" when absent) and the request context. -/
structure Request where
  authHeader : String
  ctx : Ctx
  deriving DecidableEq, Repr

/-- The nested scope loop of the middlewares (auth.go:333-344): does the
granted (token) scope list satisfy at least one required scope, counting the
sentinel scope "admin" as matching any required scope? -/
def scopeAllows (grantedScopes requiredScopes : List String) : Bool :=
  requiredScopes.any fun requiredScope =>
    grantedScopes.any fun tokenScope =>
      tokenScope == requiredScope || tokenScope == "admin"

/-- The scope gate of the middlewares (auth.go:332-354): when no scopes are
required the check is skipped entirely (allow); otherwise the nested loop
decides. -/
def scopeGate (grantedScopes requiredScopes : List String) : Bool :=
  if requiredScopes.length = 0 then true
  else scopeAllows grantedScopes requiredScopes

/-- VerifyJWTToken as called on the wire string inside the middleware
(auth.go:319).  Modelled from the spec: the string-to-token parsing done by
golang-jwt/v5 (not under src/) is abstracted as a `decode` function; a
string that does not parse is structurally invalid and yields
ErrInvalidToken (auth.go:184). -/
def Authenticator.VerifyJWTTokenString (a : Authenticator)
    (decode : String → Option Token) (now : Nat) (tokenString : String) :
    Except AuthError Claims :=
  match decode tokenString with
  | none => .error .invalidToken
  | some t => a.VerifyJWTToken now t

/-- The context writes of JWTAuthMiddleware on success (auth.go:356-359):
store claims, then scopes, then user ID in the request context. -/
def attachIdentity (ctx : Ctx) (claims : Claims) : Ctx :=
  ((ctx.withValue ClaimsContextKey (.ofClaims claims)).withValue
      ScopesContextKey (.ofScopes claims.scopes)).withValue
    UserIDContextKey (.ofString claims.userID)

/-- JWTAuthMiddleware (auth.go:307-365): extract the bearer token, verify
it (mapping ErrExpiredToken to 401 "Token expired" and any other failure to
401 "Unauthorized"), run the scope gate (403 on denial), then store claims,
scopes and user ID in the request context and invoke the next handler. -/
def Authenticator.JWTAuthMiddleware (a : Authenticator)
    (requiredScopes : List String) (decode : String → Option Token)
    (now : Nat) (next : Request → Response) (r : Request) : Response :=
  match ExtractBearerToken r.authHeader with
  | .error _ => { statusCode := 401, body := "Unauthorized" }
  | .ok token =>
    match a.VerifyJWTTokenString decode now token with
    | .error e =>
        if e = .expiredToken then { statusCode := 401, body := "Token expired" }
        else { statusCode := 401, body := "Unauthorized" }
    | .ok claims =>
        if scopeGate claims.scopes requiredScopes then
          next { r with ctx := attachIdentity r.ctx claims }
        else { statusCode := 403, body := "Forbidden: insufficient scope" }

/-- The context writes of OAuth2AuthMiddleware on success (auth.go:421-422):
store scopes and user ID — and nothing else — in the request context. -/
def attachScopesUser (ctx : Ctx) (scopes : List String) (userID : String) : Ctx :=
  (ctx.withValue ScopesContextKey (.ofScopes scopes)).withValue
    UserIDContextKey (.ofString userID)

/-- OAuth2AuthMiddleware (auth.go:368-428): after checking only that a
bearer credential is present, it fabricates the fixed scopes
["read", "write"] and user ID "oauth2-user-123" (auth.go:392-393), runs the
scope gate on those fixed scopes, stores only scopes and user ID (never
claims) in the context, and invokes the next handler. -/
def Authenticator.OAuth2AuthMiddleware (a : Authenticator)
    (requiredScopes : List String) (next : Request → Response) (r : Request) :
    Response :=
  match ExtractBearerToken r.authHeader with
  | .error _ => { statusCode := 401, body := "Unauthorized" }
  | .ok _ =>
    let scopes : List String := ["read", "write"]
    let userID : String := "oauth2-user-123"
    if scopeGate scopes requiredScopes then
      next { r with ctx := attachScopesUser r.ctx scopes userID }
    else { statusCode := 403, body := "Forbidden: insufficient scope" }

/-- GetUserID (auth.go:431-434): type assertion `.(string)` on the context
value; yields the zero value and false on absence or type mismatch. -/
def GetUserID (ctx : Ctx) : String × Bool :=
  match ctx.value UserIDContextKey with
  | some (.ofString s) => (s, true)
  | _ => ("", false)

/-- GetScopes (auth.go:437-440). -/
def GetScopes (ctx : Ctx) : List String × Bool :=
  match ctx.value ScopesContextKey with
  | some (.ofScopes s) => (s, true)
  | _ => ([], false)

/-- GetClaims (auth.go:443-446); `none` stands for Go's nil `*Claims`. -/
def GetClaims (ctx : Ctx) : Option Claims × Bool :=
  match ctx.value ClaimsContextKey with
  | some (.ofClaims c) => (some c, true)
  | _ => (none, false)

/-- A concrete HS256 authenticator used in witnesses: one-hour lifetime. -/
def aHS : Authenticator :=
  { jwtSigningMethod := .HS256
    jwtSecret := "test-secret"
    jwtPrivateKey := none
    jwtPublicKey := none
    jwtIssuer := "go-apiTemplate"
    jwtExpiration := 3600
    oauth2Config := { ClientID := "", ClientSecret := "", RedirectURL := ""
                      AuthURL := "", TokenURL := "", Scopes := [] } }

/-- The same authenticator with a zero configured lifetime. -/
def aZero : Authenticator := { aHS with jwtExpiration := 0 }

/-- The claims of a token issued at time 100 for subject "u1" with scope
"read". -/
def claimsU1 : Claims := generatedClaims aHS 100 "tid-1" "u1" [] ["read"]

/-- The token carrying `claimsU1`, signed by `aHS`. -/
def tokU1 : Token := { claims := claimsU1, sig := .hmac .HS256 "test-secret" claimsU1 }

/-- A decode environment in which every wire string parses to `tokU1`. -/
def decodeU1 : String → Option Token := fun _ => some tokU1

/-- A decode environment in which no wire string parses. -/
def decodeNone : String → Option Token := fun _ => none

/-- A downstream handler echoing the user ID it finds in the context. -/
def nextEcho : Request → Response :=
  fun q => { statusCode := 200, body := (GetUserID q.ctx).1 }

/-- Helper: a token produced by GenerateJWTToken verifies, at any time and
under any authenticator whose verification key material matches its signing
key material (always true for the HMAC family; for the RSA family the
public key must be the signing private key), to exactly the issued claims —
unless the strict expiry check fires. -/
theorem verify_generated (a : Authenticator) (genNow : Nat)
    (tokenID userID : String) (roles scopes : List String) (t : Token)
    (hgen : a.GenerateJWTToken genNow tokenID userID roles scopes = .ok t)
    (hkeys : a.jwtSigningMethod.isHMAC = true ∨ a.jwtPublicKey = a.jwtPrivateKey)
    (verNow : Nat) :
    a.VerifyJWTToken verNow t =
      if genNow + a.jwtExpiration < verNow then .error .expiredToken
      else .ok (generatedClaims a genNow tokenID userID roles scopes) := by
  cases hsm : a.jwtSigningMethod <;>
    simp only [Authenticator.GenerateJWTToken, hsm] at hgen
  case HS256 | HS384 | HS512 =>
    simp only [Except.ok.injEq] at hgen
    subst hgen
    simp [Authenticator.VerifyJWTToken, generatedClaims, gt_iff_lt]
  all_goals {
    rcases hkeys with hk | hk
    · rw [hsm] at hk; simp [SigningMethod.isHMAC] at hk
    · cases hpk : a.jwtPrivateKey <;> rw [hpk] at hgen
      · simp at hgen
      · simp only [Except.ok.injEq] at hgen
        subst hgen
        rw [hpk] at hk
        simp [Authenticator.VerifyJWTToken, generatedClaims, hk, gt_iff_lt] }

/-- Claim C1: round-trip law — a token produced by GenerateJWTToken for a
subject, roles and scopes, verified by VerifyJWTToken at or before its
expiry instant, yields claims whose subject, UserID, roles and scopes are
the originals. -/
theorem generate_verify_roundtrip (a : Authenticator) (genNow verNow : Nat)
    (tokenID userID : String) (roles scopes : List String) (t : Token)
    (hgen : a.GenerateJWTToken genNow tokenID userID roles scopes = .ok t)
    (hkeys : a.jwtSigningMethod.isHMAC = true ∨ a.jwtPublicKey = a.jwtPrivateKey)
    (hbefore : verNow ≤ genNow + a.jwtExpiration) :
    (a.VerifyJWTToken verNow t).map
        (fun c => (c.registered.subject, c.userID, c.roles, c.scopes)) =
      .ok (userID, userID, roles, scopes) := by
  rw [verify_generated a genNow tokenID userID roles scopes t hgen hkeys verNow,
    if_neg (by omega)]
  rfl

/-- Witness for C1: a concrete token for subject "u1" with scope "read",
issued at 100 by the HS256 authenticator, verified at 200. -/
theorem generate_verify_roundtrip_witness :
    (aHS.VerifyJWTToken 200 tokU1).map
        (fun c => (c.registered.subject, c.userID, c.roles, c.scopes)) =
      .ok ("u1", "u1", [], ["read"]) :=
  generate_verify_roundtrip aHS 100 200 "tid-1" "u1" [] ["read"] tokU1 rfl
    (Or.inl rfl) (by decide)

/-- Claim C2: expiry boundary — a token issued at genNow with the
configured lifetime verifies successfully at exactly genNow + lifetime, and
fails with ExpiredToken at every strictly later instant: the expiry check
is the strict comparison now > expiresAt. -/
theorem verify_expiry_boundary (a : Authenticator) (genNow : Nat)
    (tokenID userID : String) (roles scopes : List String) (t : Token)
    (hgen : a.GenerateJWTToken genNow tokenID userID roles scopes = .ok t)
    (hkeys : a.jwtSigningMethod.isHMAC = true ∨ a.jwtPublicKey = a.jwtPrivateKey) :
    a.VerifyJWTToken (genNow + a.jwtExpiration) t =
        .ok (generatedClaims a genNow tokenID userID roles scopes) ∧
    ∀ ε, 0 < ε →
      a.VerifyJWTToken (genNow + a.jwtExpiration + ε) t = .error .expiredToken := by
  refine ⟨?_, fun ε hε => ?_⟩
  · rw [verify_generated a genNow tokenID userID roles scopes t hgen hkeys _,
      if_neg (by omega)]
  · rw [verify_generated a genNow tokenID userID roles scopes t hgen hkeys _,
      if_pos (by omega)]

/-- Witness for C2: the concrete token issued at 100 with lifetime 3600 is
valid at 3700 and expired at 3701. -/
theorem verify_expiry_boundary_witness :
    aHS.VerifyJWTToken (100 + aHS.jwtExpiration) tokU1 =
        .ok (generatedClaims aHS 100 "tid-1" "u1" [] ["read"]) ∧
    aHS.VerifyJWTToken (100 + aHS.jwtExpiration + 1) tokU1 = .error .expiredToken := by
  have h := verify_expiry_boundary aHS 100 "tid-1" "u1" [] ["read"] tokU1 rfl (Or.inl rfl)
  exact ⟨h.1, h.2 1 (by decide)⟩

/-- Claim C3: scope gate policy — the middleware scope decision allows
exactly when no scope is required, or some required scope is granted
(logical OR over the required scopes), or the sentinel scope "admin" is
granted. -/
theorem scopeGate_policy (granted required : List String) :
    scopeGate granted required = true ↔
      (required = [] ∨ (∃ s, s ∈ required ∧ s ∈ granted) ∨ "admin" ∈ granted) := by
  rcases required with _ | ⟨r, rs⟩
  · simp [scopeGate]
  · rw [scopeGate, if_neg (by simp)]
    unfold scopeAllows
    simp only [List.any_eq_true, Bool.or_eq_true, beq_iff_eq]
    constructor
    · rintro ⟨req, hreq, tok, htok, h | h⟩
      · exact Or.inr (Or.inl ⟨req, hreq, h ▸ htok⟩)
      · exact Or.inr (Or.inr (h ▸ htok))
    · rintro (h | ⟨s, hs, hg⟩ | hadm)
      · exact absurd h (by simp)
      · exact ⟨s, hs, s, hg, Or.inl rfl⟩
      · exact ⟨r, by simp, "admin", hadm, Or.inr rfl⟩

/-- Claim C5: bearer extraction — "Bearer abc" yields "abc"; "Basic abc"
fails with the malformed-header error (the code reuses ErrInvalidToken for
it); an absent or empty header fails with the missing-credential error
(ErrMissingToken); and in general extraction succeeds exactly when the
header splits on spaces into two parts with first part "Bearer", returning
the second part. -/
theorem extractBearerToken_spec :
    ExtractBearerToken "Bearer abc" = .ok "abc" ∧
    ExtractBearerToken "Basic abc" = .error .invalidToken ∧
    ExtractBearerToken "" = .error .missingToken ∧
    ∀ h v, (ExtractBearerToken h = .ok v ↔ splitSpace h = ["Bearer", v]) := by
  refine ⟨rfl, rfl, rfl, fun h v => ?_⟩
  unfold ExtractBearerToken
  by_cases he : h = ""
  · subst he
    rw [if_pos rfl]
    have h0 : splitSpace "" = [""] := rfl
    rw [h0]
    simp
  · rw [if_neg he]
    rcases hs : splitSpace h with _ | ⟨s, _ | ⟨c, _ | _⟩⟩
    · simp
    · simp
    · by_cases hb : s = "Bearer"
      · subst hb; simp
      · simp [hb]
    · simp

/-- Helper: a token produced by GenerateJWTToken carries exactly the claims
built at lines auth.go:131-143. -/
theorem generate_ok_claims (a : Authenticator) (genNow : Nat)
    (tokenID userID : String) (roles scopes : List String) (t : Token)
    (hgen : a.GenerateJWTToken genNow tokenID userID roles scopes = .ok t) :
    t.claims = generatedClaims a genNow tokenID userID roles scopes := by
  cases hsm : a.jwtSigningMethod <;>
    simp only [Authenticator.GenerateJWTToken, hsm] at hgen
  case HS256 | HS384 | HS512 =>
    simp only [Except.ok.injEq] at hgen; subst hgen; rfl
  all_goals {
    cases hpk : a.jwtPrivateKey <;> rw [hpk] at hgen
    · simp at hgen
    · simp only [Except.ok.injEq] at hgen; subst hgen; rfl }

/-- Claim C4: middleware rejection mapping — bearer extraction is checked
first, then verification, then scopes; extraction failure yields 401
"Unauthorized", an ExpiredToken verification failure yields 401
"Token expired", any other verification failure yields 401 "Unauthorized",
and a scope denial yields 403 "Forbidden: insufficient scope".  In every
rejected case the result is the fixed error response for every downstream
handler `next`, so the downstream handler is never invoked. -/
theorem jwtAuthMiddleware_rejections (a : Authenticator)
    (requiredScopes : List String) (decode : String → Option Token)
    (now : Nat) (next : Request → Response) (r : Request) :
    (∀ e, ExtractBearerToken r.authHeader = .error e →
        a.JWTAuthMiddleware requiredScopes decode now next r =
          { statusCode := 401, body := "Unauthorized" }) ∧
    (∀ s, ExtractBearerToken r.authHeader = .ok s →
        a.VerifyJWTTokenString decode now s = .error .expiredToken →
        a.JWTAuthMiddleware requiredScopes decode now next r =
          { statusCode := 401, body := "Token expired" }) ∧
    (∀ s e, ExtractBearerToken r.authHeader = .ok s →
        a.VerifyJWTTokenString decode now s = .error e → e ≠ .expiredToken →
        a.JWTAuthMiddleware requiredScopes decode now next r =
          { statusCode := 401, body := "Unauthorized" }) ∧
    (∀ s c, ExtractBearerToken r.authHeader = .ok s →
        a.VerifyJWTTokenString decode now s = .ok c →
        scopeGate c.scopes requiredScopes = false →
        a.JWTAuthMiddleware requiredScopes decode now next r =
          { statusCode := 403, body := "Forbidden: insufficient scope" }) := by
  refine ⟨fun e hex => ?_, fun s hex hver => ?_, fun s e hex hver hne => ?_,
    fun s c hex hver hgate => ?_⟩
  · unfold Authenticator.JWTAuthMiddleware; rw [hex]
  · unfold Authenticator.JWTAuthMiddleware; rw [hex]; simp only []; rw [hver]
    simp
  · unfold Authenticator.JWTAuthMiddleware; rw [hex]; simp only []; rw [hver]
    simp only []; rw [if_neg hne]
  · unfold Authenticator.JWTAuthMiddleware; rw [hex]; simp only []; rw [hver]
    simp only []; rw [if_neg (by simp [hgate])]

/-- Witness for C4: a decode environment in which the credential does not
parse gives 401 "Unauthorized" at a concrete request. -/
theorem jwtAuthMiddleware_rejections_witness :
    aHS.JWTAuthMiddleware [] decodeNone 0 nextEcho
        { authHeader := "Bearer x", ctx := [] } =
      { statusCode := 401, body := "Unauthorized" } :=
  (jwtAuthMiddleware_rejections aHS [] decodeNone 0 nextEcho
      { authHeader := "Bearer x", ctx := [] }).2.2.1 "x" .invalidToken rfl rfl
    (by decide)

/-- Claim C6: successful authorization attaches identity to the request
context and passes the downstream result through unmodified — when
extraction, verification and the scope gate all succeed, the middleware
result is exactly the next handler applied to the request carrying the
enriched context, in which GetClaims, GetScopes and GetUserID find the
verified claims, their scopes and their user ID; and for every token
produced by GenerateJWTToken the stored user ID equals the token's
subject. -/
theorem jwtAuthMiddleware_success (a : Authenticator)
    (requiredScopes : List String) (decode : String → Option Token)
    (now : Nat) (next : Request → Response) (r : Request) (s : String)
    (c : Claims)
    (hex : ExtractBearerToken r.authHeader = .ok s)
    (hver : a.VerifyJWTTokenString decode now s = .ok c)
    (hgate : scopeGate c.scopes requiredScopes = true) :
    a.JWTAuthMiddleware requiredScopes decode now next r =
        next { r with ctx := attachIdentity r.ctx c } ∧
    GetClaims (attachIdentity r.ctx c) = (some c, true) ∧
    GetScopes (attachIdentity r.ctx c) = (c.scopes, true) ∧
    GetUserID (attachIdentity r.ctx c) = (c.userID, true) ∧
    ∀ (genNow : Nat) (tokenID userID : String) (roles scopes : List String)
      (t : Token),
      a.GenerateJWTToken genNow tokenID userID roles scopes = .ok t →
      t.claims.userID = t.claims.registered.subject := by
  refine ⟨?_, rfl, rfl, rfl, fun genNow tokenID userID roles scopes t hg => ?_⟩
  · unfold Authenticator.JWTAuthMiddleware; rw [hex]; simp only []; rw [hver]
    simp only []; rw [if_pos hgate]
  · rw [generate_ok_claims a genNow tokenID userID roles scopes t hg]; rfl

/-- Witness for C6: the request carrying the concrete token for subject
"u1" with scope "read", against a route requiring "read", reaches the
downstream handler, which reads user ID "u1" from the context. -/
theorem jwtAuthMiddleware_success_witness :
    aHS.JWTAuthMiddleware ["read"] decodeU1 200 nextEcho
        { authHeader := "Bearer t", ctx := [] } =
      { statusCode := 200, body := "u1" } := by
  have h := jwtAuthMiddleware_success aHS ["read"] decodeU1 200 nextEcho
    { authHeader := "Bearer t", ctx := [] } "t" claimsU1 rfl rfl rfl
  rw [h.1]
  rfl

/-- Claim C7: silent algorithm fallback — for every configured
signing-method name outside the six recognised names, NewAuthenticator
succeeds, selects HMAC-SHA256, and every token generated under the
resulting authenticator is signed with HMAC-SHA256 over the configured
secret. -/
theorem newAuthenticator_silent_fallback (cfg : AuthConfig)
    (h : cfg.JWTSigningMethod ∉ supportedMethodNames) :
    ∃ a, NewAuthenticator cfg = .ok a ∧ a.jwtSigningMethod = .HS256 ∧
      ∀ (now : Nat) (tokenID userID : String) (roles scopes : List String),
        a.GenerateJWTToken now tokenID userID roles scopes =
          .ok { claims := generatedClaims a now tokenID userID roles scopes
                sig := .hmac .HS256 cfg.JWTSecret
                  (generatedClaims a now tokenID userID roles scopes) } := by
  simp only [supportedMethodNames, List.mem_cons, List.not_mem_nil, or_false,
    not_or] at h
  obtain ⟨h1, h2, h3, h4, h5, h6⟩ := h
  have hm : NewAuthenticator cfg = .ok
      { jwtSigningMethod := .HS256
        jwtSecret := cfg.JWTSecret
        jwtPrivateKey := cfg.JWTPrivateKey
        jwtPublicKey := cfg.JWTPublicKey
        jwtIssuer := cfg.JWTIssuer
        jwtExpiration := cfg.JWTExpirationTime
        oauth2Config :=
          { ClientID := cfg.OAuth2ClientID
            ClientSecret := cfg.OAuth2ClientSecret
            RedirectURL := cfg.OAuth2RedirectURL
            AuthURL := cfg.OAuth2AuthURL
            TokenURL := cfg.OAuth2TokenURL
            Scopes := cfg.OAuth2Scopes } } := by
    simp only [NewAuthenticator]
  exact ⟨_, hm, rfl, fun now tokenID userID roles scopes => rfl⟩

/-- A configuration naming the unsupported method "ES256". -/
def cfgES : AuthConfig :=
  { JWTSecret := "s", JWTPrivateKey := none, JWTPublicKey := none
    JWTSigningMethod := "ES256", JWTExpirationTime := 60, JWTIssuer := "iss" }

/-- The authenticator NewAuthenticator builds from `cfgES`. -/
def aES : Authenticator :=
  { jwtSigningMethod := .HS256, jwtSecret := "s", jwtPrivateKey := none
    jwtPublicKey := none, jwtIssuer := "iss", jwtExpiration := 60
    oauth2Config := { ClientID := "", ClientSecret := "", RedirectURL := ""
                      AuthURL := "", TokenURL := "", Scopes := [] } }

/-- Witness for C7: configuring the unrecognised name "ES256" succeeds and
generates HMAC-SHA256-signed tokens. -/
theorem newAuthenticator_silent_fallback_witness :
    NewAuthenticator cfgES = .ok aES ∧ aES.jwtSigningMethod = .HS256 ∧
    aES.GenerateJWTToken 0 "t" "u" [] [] =
      .ok { claims := generatedClaims aES 0 "t" "u" [] []
            sig := .hmac .HS256 cfgES.JWTSecret (generatedClaims aES 0 "t" "u" [] []) } := by
  obtain ⟨a, hnew, hmethod, hgen⟩ :=
    newAuthenticator_silent_fallback cfgES (by decide)
  have ha : a = aES := by
    have hES : NewAuthenticator cfgES = .ok aES := rfl
    exact Except.ok.inj (hnew.symm.trans hES)
  subst ha
  exact ⟨hnew, hmethod, hgen 0 "t" "u" [] []⟩

/-- Counterexample to claim C8 as stated: with a configured lifetime of
zero (which the code never validates), a generated token's expiry equals
its issuance instant instead of being strictly after it. -/
theorem generatedClaims_zero_lifetime_cx :
    (aZero.GenerateJWTToken 5 "tid" "u" [] []).map
        (fun t => (t.claims.registered.issuedAt, t.claims.registered.expiresAt)) =
      .ok (5, 5) := rfl

/-- Claim C8 as amended: whenever the configured lifetime is positive,
every Claims value produced by GenerateJWTToken has issuedAt = notBefore =
the issuance instant and expiresAt = issuedAt + lifetime, strictly after
issuedAt, for every subject, roles and scopes input. -/
theorem generatedClaims_expiry (a : Authenticator)
    (hpos : 0 < a.jwtExpiration) (now : Nat) (tokenID userID : String)
    (roles scopes : List String) (t : Token)
    (hgen : a.GenerateJWTToken now tokenID userID roles scopes = .ok t) :
    t.claims.registered.issuedAt = now ∧
    t.claims.registered.notBefore = now ∧
    t.claims.registered.expiresAt = now + a.jwtExpiration ∧
    t.claims.registered.issuedAt < t.claims.registered.expiresAt := by
  rw [generate_ok_claims a now tokenID userID roles scopes t hgen]
  refine ⟨rfl, rfl, rfl, ?_⟩
  simp only [generatedClaims]
  omega

/-- Witness for C8 (amended): the concrete token issued at 100 under the
one-hour authenticator. -/
theorem generatedClaims_expiry_witness :
    tokU1.claims.registered.issuedAt = 100 ∧
    tokU1.claims.registered.notBefore = 100 ∧
    tokU1.claims.registered.expiresAt = 100 + aHS.jwtExpiration ∧
    tokU1.claims.registered.issuedAt < tokU1.claims.registered.expiresAt :=
  generatedClaims_expiry aHS (by decide) 100 "tid-1" "u1" [] ["read"] tokU1 rfl

/-- Counterexample to claim C9 as stated: a request whose Authorization
header yields a bearer credential, sent through the OAuth2 middleware of a
route requiring the scope "delete", is rejected with 403 and gets nothing
attached — the downstream handler (which would answer 200) is never
invoked. -/
theorem oauth2Middleware_denial_cx :
    aHS.OAuth2AuthMiddleware ["delete"] nextEcho
        { authHeader := "Bearer sometoken", ctx := [] } =
      { statusCode := 403, body := "Forbidden: insufficient scope" } := rfl

/-- Claim C9 as amended: the OAuth2 middleware rejects requests without a
valid bearer header with 401; for requests with one it performs no
verification of the credential (its outcome is independent of the
credential's content): when the fixed scope set ["read", "write"] passes
the gate for the route's required scopes it attaches exactly those fixed
scopes and the fixed user ID "oauth2-user-123" to the context and invokes
the next handler, and otherwise it rejects with 403. -/
theorem oauth2Middleware_behavior (a : Authenticator)
    (requiredScopes : List String) (next : Request → Response) (r : Request) :
    (∀ e, ExtractBearerToken r.authHeader = .error e →
        a.OAuth2AuthMiddleware requiredScopes next r =
          { statusCode := 401, body := "Unauthorized" }) ∧
    (∀ s, ExtractBearerToken r.authHeader = .ok s →
        scopeGate ["read", "write"] requiredScopes = true →
        a.OAuth2AuthMiddleware requiredScopes next r =
          next { r with
            ctx := attachScopesUser r.ctx ["read", "write"] "oauth2-user-123" }) ∧
    (∀ s, ExtractBearerToken r.authHeader = .ok s →
        scopeGate ["read", "write"] requiredScopes = false →
        a.OAuth2AuthMiddleware requiredScopes next r =
          { statusCode := 403, body := "Forbidden: insufficient scope" }) ∧
    (∀ (q : Request) s sq, ExtractBearerToken r.authHeader = .ok s →
        ExtractBearerToken q.authHeader = .ok sq → r.ctx = q.ctx →
        (∀ u u' : Request, u.ctx = u'.ctx → next u = next u') →
        a.OAuth2AuthMiddleware requiredScopes next r =
          a.OAuth2AuthMiddleware requiredScopes next q) := by
  refine ⟨fun e hex => ?_, fun s hex hgate => ?_, fun s hex hgate => ?_,
    fun q s sq hex hexq hctx hnext => ?_⟩
  · unfold Authenticator.OAuth2AuthMiddleware; rw [hex]
  · unfold Authenticator.OAuth2AuthMiddleware; rw [hex]; simp only []
    rw [if_pos hgate]
  · unfold Authenticator.OAuth2AuthMiddleware; rw [hex]; simp only []
    rw [if_neg (by simp [hgate])]
  · unfold Authenticator.OAuth2AuthMiddleware; rw [hex, hexq]; simp only []
    by_cases hgate : scopeGate ["read", "write"] requiredScopes = true
    · rw [if_pos hgate, if_pos hgate]
      exact hnext _ _ (by simp [attachScopesUser, Ctx.withValue, hctx])
    · rw [if_neg hgate, if_neg hgate]

/-- Witness for C9 (amended): a garbage bearer credential on a route
requiring "read" reaches the downstream handler, which reads the fabricated
user ID. -/
theorem oauth2Middleware_behavior_witness :
    aHS.OAuth2AuthMiddleware ["read"] nextEcho
        { authHeader := "Bearer garbage", ctx := [] } =
      { statusCode := 200, body := "oauth2-user-123" } := by
  have h := (oauth2Middleware_behavior aHS ["read"] nextEcho
    { authHeader := "Bearer garbage", ctx := [] }).2.1 "garbage" rfl (by decide)
  rw [h]
  rfl

/-- Claim C10: a request authorized through the OAuth2 middleware (whose
incoming context holds no claims entry) reaches the downstream handler with
a context in which GetClaims reports absence while GetUserID and GetScopes
succeed with the fabricated values, because the middleware stores only
scopes and user ID. -/
theorem oauth2Middleware_no_claims (a : Authenticator)
    (requiredScopes : List String) (next : Request → Response) (r : Request)
    (s : String)
    (hclaims : r.ctx.value ClaimsContextKey = none)
    (hex : ExtractBearerToken r.authHeader = .ok s)
    (hgate : scopeGate ["read", "write"] requiredScopes = true) :
    a.OAuth2AuthMiddleware requiredScopes next r =
        next { r with
          ctx := attachScopesUser r.ctx ["read", "write"] "oauth2-user-123" } ∧
    GetClaims (attachScopesUser r.ctx ["read", "write"] "oauth2-user-123") =
        (none, false) ∧
    GetUserID (attachScopesUser r.ctx ["read", "write"] "oauth2-user-123") =
        ("oauth2-user-123", true) ∧
    GetScopes (attachScopesUser r.ctx ["read", "write"] "oauth2-user-123") =
        (["read", "write"], true) := by
  refine ⟨?_, ?_, rfl, rfl⟩
  · unfold Authenticator.OAuth2AuthMiddleware; rw [hex]; simp only []
    rw [if_pos hgate]
  · have hred : Ctx.value
        (attachScopesUser r.ctx ["read", "write"] "oauth2-user-123")
        ClaimsContextKey = r.ctx.value ClaimsContextKey := rfl
    unfold GetClaims
    rw [hred, hclaims]

/-- Witness for C10: concrete request with an empty incoming context. -/
theorem oauth2Middleware_no_claims_witness :
    GetClaims (attachScopesUser [] ["read", "write"] "oauth2-user-123") =
        (none, false) ∧
    aHS.OAuth2AuthMiddleware [] nextEcho { authHeader := "Bearer z", ctx := [] } =
      { statusCode := 200, body := "oauth2-user-123" } := by
  have h := oauth2Middleware_no_claims aHS [] nextEcho
    { authHeader := "Bearer z", ctx := [] } "z" rfl rfl rfl
  exact ⟨h.2.1, by rw [h.1]; rfl⟩

end Auth
